import Mathlib

/-!
Shallow embedding of the pet-bot action engine from `src/main.py`:
the pet record, the feed/walk command transitions (`cmd_feed`, `cmd_walk`),
the shared post-action cooldown resolution (`handle_post_action`) and the
daily reset transition (`apply_daily_reset_all`, modelled per pet).

Modelling conventions:
- Python integers become `Int`; `max(0, x)` / `min(200, x)` become
  `max 0 x` / `min 200 x`.
- A stored timestamp string (`boycott_until`, `sick_until`) becomes `TStr`:
  `null` for SQL NULL / empty string (falsy in Python), `corrupt` for a
  truthy string that `datetime.fromisoformat` fails to parse, and
  `valid t` for a parsable timestamp, with instants modelled as `Int`
  seconds; "2 hours" is the constant `twoHours = 7200`.
- Each `update_pet` call in Python patches the database row; the command
  handlers compute patch values from the `pet` dict fetched at entry, which
  may be stale.  The embedding threads the database state (`db...`)
  explicitly while computing patch values from the entry snapshot `p0`,
  exactly as the source does.
- Randomness (`random.random() < 0.01`, `random.randint`) is passed in as
  explicit outcome parameters (`FeedRand`, `WalkRand`, `ResetRand`).
-/

/-- Model of a persisted timestamp string column. -/
inductive TStr where
  | null : TStr
  | corrupt : TStr
  | valid : Int → TStr
deriving DecidableEq, Repr

/-- One row of the `pets` table; fields kept in source order and names.
`chat_id`, `owner_name`, `pet_name` are identity/display only and carry no
engine logic, so they are omitted. -/
structure Pet where
  feed_morning : Int
  feed_afternoon : Int
  feed_evening : Int
  walk_morning : Int
  walk_evening : Int
  total_feeds : Int
  total_walks : Int
  anger : Int
  hunger_scale : Int
  sick_until : TStr
  boycott_until : TStr
  experience : Int
  days_lived : Int
  last_reset : Int
  boycott_active : Int
  sick_flag : Int
deriving DecidableEq, Repr

/-- `timedelta(hours=2)` in seconds. -/
def twoHours : Int := 7200

/-- `meal_period_for_dt`: hour of day to meal period. -/
inductive Period where
  | morning | afternoon | evening
deriving DecidableEq, Repr

/-- `meal_period_for_dt` from `src/main.py`. -/
def meal_period_for_dt (h : Int) : Period :=
  if 5 ≤ h ∧ h ≤ 11 then Period.morning
  else if 12 ≤ h ∧ h ≤ 16 then Period.afternoon
  else Period.evening

/-- Read the period-specific feed counter (`pet.get(f"feed_{period}", 0)`). -/
def Pet.feedCount (p : Pet) : Period → Int
  | Period.morning => p.feed_morning
  | Period.afternoon => p.feed_afternoon
  | Period.evening => p.feed_evening

/-- Write the period-specific feed counter (the `{field: new_cnt}` patch). -/
def setFeedCount (p : Pet) : Period → Int → Pet
  | Period.morning, v => { p with feed_morning := v }
  | Period.afternoon, v => { p with feed_afternoon := v }
  | Period.evening, v => { p with feed_evening := v }

/-- `handle_post_action` from `src/main.py`: after /feed or /walk, clear a
pending `boycott_active` marker into `boycott_until = now+2h`, and a pending
`sick_flag` marker into `sick_until = now+2h`; each check independent. -/
def handle_post_action (now : Int) (p : Pet) : Pet :=
  let p1 :=
    if p.boycott_active = 1 then
      { p with boycott_active := 0, boycott_until := TStr.valid (now + twoHours) }
    else p
  if p.sick_flag = 1 then
    { p1 with sick_flag := 0, sick_until := TStr.valid (now + twoHours) }
  else p1

/-- The boycott cooldown gate at the top of `cmd_feed` / `cmd_walk`:
blocks iff `boycott_until` is truthy, parses, and lies in the future.
A `null` value skips the gate; a `corrupt` value raises inside the `try`
and is swallowed by `except: pass`. -/
def boycottGateBlocks (now : Int) (p : Pet) : Bool :=
  match p.boycott_until with
  | TStr.valid t => now < t
  | TStr.corrupt => false
  | TStr.null => false

/-- Outcome of the single probabilistic draw in `cmd_feed`
(`random.random() < 0.01` in the overfeed branch). -/
structure FeedRand where
  sick_event : Bool
deriving DecidableEq, Repr

/-- The closing re-check shared by `cmd_feed` and `cmd_walk`: re-read the
row (`pet2 = get_pet(...)`); if `hunger_scale >= 100`, set
`sick_until = now + 2 hours`. -/
def sickRecheck (now : Int) (p : Pet) : Pet :=
  if p.hunger_scale ≥ 100 then
    { p with sick_until := TStr.valid (now + twoHours) }
  else p

/-- The primary writes of `cmd_feed` (lines before `handle_post_action`):
the overfeed-branch patches followed by the counter/total/experience patch.
`p0` is the `pet` dict fetched at entry; every patch value is computed from
`p0` (stale reads included) while the patches accumulate on the threaded
database state, exactly as in the source. -/
def feed_primary (now_h : Int) (r : FeedRand) (p0 : Pet) : Pet :=
  let period := meal_period_for_dt now_h
  let new_cnt := p0.feedCount period + 1
  -- Overfeed: more than 2 times in same period
  let db1 :=
    if new_cnt > 2 then
      let dbA := { p0 with experience := max 0 (p0.experience - 2) }
      if r.sick_event then
        { dbA with hunger_scale := min 200 (p0.hunger_scale + 50) }
      else dbA
    else p0
  { setFeedCount db1 period new_cnt with
      total_feeds := p0.total_feeds + 1
      experience := p0.experience + 1 }

/-- Body of `cmd_feed` past the boycott gate, as the source sequences it:
primary writes, then `handle_post_action`, then the hunger re-check. -/
def feed_effects (now_h now : Int) (r : FeedRand) (p0 : Pet) : Pet :=
  sickRecheck now (handle_post_action now (feed_primary now_h r p0))

/-- `cmd_feed` from `src/main.py` (state transition part; replies omitted). -/
def cmd_feed (now_h now : Int) (r : FeedRand) (p0 : Pet) : Pet :=
  if boycottGateBlocks now p0 then p0 else feed_effects now_h now r p0

/-- Outcomes of the probabilistic draws in `cmd_walk`:
`neg_event` is `random.random() < 0.01`, `loss` is `random.randint(1, 3)`. -/
structure WalkRand where
  neg_event : Bool
  loss : Int
deriving DecidableEq, Repr

/-- The primary writes of `cmd_walk` (lines before `handle_post_action`):
the counter/total/experience patch, then the optional negative-event patch
whose value is computed from the stale entry snapshot `p0`. -/
def walk_primary (now_h : Int) (r : WalkRand) (p0 : Pet) : Pet :=
  let db1 :=
    if 5 ≤ now_h ∧ now_h ≤ 11 then
      { p0 with walk_morning := p0.walk_morning + 1
                total_walks := p0.total_walks + 1
                experience := p0.experience + 1 }
    else
      { p0 with walk_evening := p0.walk_evening + 1
                total_walks := p0.total_walks + 1
                experience := p0.experience + 1 }
  if r.neg_event then
    { db1 with experience := max 0 (p0.experience - r.loss) }
  else db1

/-- Body of `cmd_walk` past the boycott gate, as the source sequences it:
primary writes, then `handle_post_action`, then the hunger re-check. -/
def walk_effects (now_h now : Int) (r : WalkRand) (p0 : Pet) : Pet :=
  sickRecheck now (handle_post_action now (walk_primary now_h r p0))

/-- `cmd_walk` from `src/main.py` (state transition part; replies omitted). -/
def cmd_walk (now_h now : Int) (r : WalkRand) (p0 : Pet) : Pet :=
  if boycottGateBlocks now p0 then p0 else walk_effects now_h now r p0

/-- Outcomes of the five `random.randint` penalty draws in
`apply_daily_reset_all` (one per potentially missed slot). -/
structure ResetRand where
  miss_feed_morning : Int
  miss_walk_morning : Int
  miss_feed_afternoon : Int
  miss_feed_evening : Int
  miss_walk_evening : Int
deriving DecidableEq, Repr

/-- The anger computation inside `apply_daily_reset_all`. -/
def resetAnger (r : ResetRand) (p : Pet) : Int :=
  let fed_m := p.feed_morning > 0
  let fed_a := p.feed_afternoon > 0
  let fed_e := p.feed_evening > 0
  let walked_m := p.walk_morning > 0
  let walked_e := p.walk_evening > 0
  if ¬ fed_m ∧ ¬ fed_a ∧ ¬ fed_e ∧ ¬ walked_m ∧ ¬ walked_e then 100
  else
    let a1 := if ¬ fed_m then p.anger + r.miss_feed_morning else p.anger
    let a2 := if ¬ walked_m then a1 + r.miss_walk_morning else a1
    let a3 := if ¬ fed_a then a2 + r.miss_feed_afternoon else a2
    let a4 := if ¬ fed_e then a3 + r.miss_feed_evening else a3
    let a5 := if ¬ walked_e then a4 + r.miss_walk_evening else a4
    if a5 > 100 then 100 else a5

/-- The flat `hunger_add` computation inside `apply_daily_reset_all`:
+20 per missed slot, five slots. -/
def hungerAdd (p : Pet) : Int :=
  (if ¬ p.feed_morning > 0 then 20 else 0) +
  (if ¬ p.feed_afternoon > 0 then 20 else 0) +
  (if ¬ p.feed_evening > 0 then 20 else 0) +
  (if ¬ p.walk_morning > 0 then 20 else 0) +
  (if ¬ p.walk_evening > 0 then 20 else 0)

/-- `apply_daily_reset_all` from `src/main.py`, restricted to the per-pet
transition (the outer loop over rows is iteration plumbing).  `today` is
the value of `datetime.now(MSK).date()`.  The `updates` dict written once
by `update_pet` is modelled as a single structure update; a key written by
both the hunger and anger branches (`boycott_active`) keeps the final
value 1, as a dict does. -/
def apply_daily_reset (today : Int) (r : ResetRand) (p : Pet) : Pet :=
  let anger := resetAnger r p
  let hunger1 := p.hunger_scale + hungerAdd p
  let hungerHigh := hunger1 ≥ 100
  let hunger2 := if hungerHigh then max hunger1 100 else hunger1
  { p with
      sick_flag := if hungerHigh then 1 else p.sick_flag
      boycott_active :=
        if hungerHigh ∨ anger ≥ 100 then 1 else p.boycott_active
      total_feeds :=
        if hungerHigh then max 0 (p.total_feeds - 3) else p.total_feeds
      total_walks :=
        if hungerHigh then max 0 (p.total_walks - 2) else p.total_walks
      experience :=
        if anger ≥ 100 then max 0 (p.experience - 5) else p.experience
      anger := anger
      hunger_scale := hunger2
      days_lived := p.days_lived + 1
      feed_morning := 0
      feed_afternoon := 0
      feed_evening := 0
      walk_morning := 0
      walk_evening := 0
      last_reset := today }

/-- One user action with its wall-clock time and random outcomes. -/
inductive PetAction where
  | feed (now_h now : Int) (r : FeedRand)
  | walk (now_h now : Int) (r : WalkRand)
deriving DecidableEq, Repr

/-- Run one action through the corresponding command handler. -/
def runAction (p : Pet) : PetAction → Pet
  | PetAction.feed now_h now r => cmd_feed now_h now r p
  | PetAction.walk now_h now r => cmd_walk now_h now r p

/-- Run a finite sequence of feed/walk actions. -/
def runActions (acts : List PetAction) (p : Pet) : Pet :=
  acts.foldl runAction p

/-- The non-negativity predicate of the spec invariant: `experience`,
`total_feeds`, `total_walks`, `anger`, `hunger_scale` all non-negative. -/
def Nonneg (p : Pet) : Prop :=
  0 ≤ p.experience ∧ 0 ≤ p.total_feeds ∧ 0 ≤ p.total_walks ∧
  0 ≤ p.anger ∧ 0 ≤ p.hunger_scale

instance (p : Pet) : Decidable (Nonneg p) := by
  unfold Nonneg; infer_instance

/-- A fresh pet as created by `create_pet` (all counters zero, no markers). -/
def basePet : Pet :=
  { feed_morning := 0, feed_afternoon := 0, feed_evening := 0
    walk_morning := 0, walk_evening := 0
    total_feeds := 0, total_walks := 0
    anger := 0, hunger_scale := 0
    sick_until := TStr.null, boycott_until := TStr.null
    experience := 0, days_lived := 0, last_reset := 0
    boycott_active := 0, sick_flag := 0 }

/-- A pet already fed twice this morning, with 10 experience. -/
def petOverfed : Pet := { basePet with feed_morning := 2, experience := 10 }

/-- A pet with 10 experience, used for the walk negative-event analysis. -/
def petWalkTen : Pet := { basePet with experience := 10 }

/-- A pet with both pending markers set. -/
def petBothMarkers : Pet := { basePet with boycott_active := 1, sick_flag := 1 }

/-- A pet with a future sickness cooldown but no boycott cooldown. -/
def petSickOnly : Pet := { basePet with sick_until := TStr.valid 5000 }

/-- A pet whose stored boycott timestamp is corrupt. -/
def petCorrupt : Pet := { basePet with boycott_until := TStr.corrupt, experience := 3 }

/-- A neglected pet: high hunger, some lifetime counters. -/
def petNeglected : Pet :=
  { basePet with hunger_scale := 90, total_feeds := 10, total_walks := 10 }

/-- A pet under an unexpired boycott cooldown (until instant 100), with a
pending marker and a future sickness cooldown as well. -/
def petBoycottFuture : Pet :=
  { basePet with boycott_until := TStr.valid 100, boycott_active := 1
                 sick_until := TStr.valid 99999, experience := 4 }

theorem setFeedCount_frame (p : Pet) (per : Period) (v : Int) :
    (setFeedCount p per v).walk_morning = p.walk_morning ∧
    (setFeedCount p per v).walk_evening = p.walk_evening ∧
    (setFeedCount p per v).total_feeds = p.total_feeds ∧
    (setFeedCount p per v).total_walks = p.total_walks ∧
    (setFeedCount p per v).anger = p.anger ∧
    (setFeedCount p per v).hunger_scale = p.hunger_scale ∧
    (setFeedCount p per v).sick_until = p.sick_until ∧
    (setFeedCount p per v).boycott_until = p.boycott_until ∧
    (setFeedCount p per v).experience = p.experience ∧
    (setFeedCount p per v).boycott_active = p.boycott_active ∧
    (setFeedCount p per v).sick_flag = p.sick_flag := by
  cases per <;> simp [setFeedCount]

theorem handle_post_action_frame (now : Int) (p : Pet) :
    (handle_post_action now p).feed_morning = p.feed_morning ∧
    (handle_post_action now p).feed_afternoon = p.feed_afternoon ∧
    (handle_post_action now p).feed_evening = p.feed_evening ∧
    (handle_post_action now p).walk_morning = p.walk_morning ∧
    (handle_post_action now p).walk_evening = p.walk_evening ∧
    (handle_post_action now p).total_feeds = p.total_feeds ∧
    (handle_post_action now p).total_walks = p.total_walks ∧
    (handle_post_action now p).anger = p.anger ∧
    (handle_post_action now p).hunger_scale = p.hunger_scale ∧
    (handle_post_action now p).experience = p.experience := by
  unfold handle_post_action
  by_cases hb : p.boycott_active = 1 <;> by_cases hs : p.sick_flag = 1 <;>
    simp [hb, hs]

theorem sickRecheck_frame (now : Int) (p : Pet) :
    (sickRecheck now p).feed_morning = p.feed_morning ∧
    (sickRecheck now p).feed_afternoon = p.feed_afternoon ∧
    (sickRecheck now p).feed_evening = p.feed_evening ∧
    (sickRecheck now p).walk_morning = p.walk_morning ∧
    (sickRecheck now p).walk_evening = p.walk_evening ∧
    (sickRecheck now p).total_feeds = p.total_feeds ∧
    (sickRecheck now p).total_walks = p.total_walks ∧
    (sickRecheck now p).anger = p.anger ∧
    (sickRecheck now p).hunger_scale = p.hunger_scale ∧
    (sickRecheck now p).experience = p.experience ∧
    (sickRecheck now p).boycott_active = p.boycott_active ∧
    (sickRecheck now p).boycott_until = p.boycott_until ∧
    (sickRecheck now p).sick_flag = p.sick_flag := by
  unfold sickRecheck
  split <;> simp

theorem feed_primary_fields (now_h : Int) (r : FeedRand) (p : Pet) :
    (feed_primary now_h r p).experience = p.experience + 1 ∧
    (feed_primary now_h r p).total_feeds = p.total_feeds + 1 ∧
    (feed_primary now_h r p).total_walks = p.total_walks ∧
    (feed_primary now_h r p).anger = p.anger ∧
    ((feed_primary now_h r p).hunger_scale = p.hunger_scale ∨
     (feed_primary now_h r p).hunger_scale = min 200 (p.hunger_scale + 50)) := by
  simp only [feed_primary]
  cases hper : meal_period_for_dt now_h <;>
    simp only [hper, Pet.feedCount, setFeedCount] <;>
    split_ifs <;> simp

theorem walk_primary_fields (now_h : Int) (r : WalkRand) (p : Pet) :
    (walk_primary now_h r p).total_walks = p.total_walks + 1 ∧
    (walk_primary now_h r p).total_feeds = p.total_feeds ∧
    (walk_primary now_h r p).anger = p.anger ∧
    (walk_primary now_h r p).hunger_scale = p.hunger_scale ∧
    (r.neg_event = true →
      (walk_primary now_h r p).experience = max 0 (p.experience - r.loss)) ∧
    (r.neg_event = false →
      (walk_primary now_h r p).experience = p.experience + 1) ∧
    ((5 ≤ now_h ∧ now_h ≤ 11) →
      (walk_primary now_h r p).walk_morning = p.walk_morning + 1) ∧
    (¬ (5 ≤ now_h ∧ now_h ≤ 11) →
      (walk_primary now_h r p).walk_evening = p.walk_evening + 1) := by
  simp only [walk_primary]
  split_ifs <;> simp_all

theorem feed_effects_fields (now_h now : Int) (r : FeedRand) (p : Pet) :
    (feed_effects now_h now r p).experience = p.experience + 1 ∧
    (feed_effects now_h now r p).total_feeds = p.total_feeds + 1 ∧
    (feed_effects now_h now r p).total_walks = p.total_walks ∧
    (feed_effects now_h now r p).anger = p.anger ∧
    ((feed_effects now_h now r p).hunger_scale = p.hunger_scale ∨
     (feed_effects now_h now r p).hunger_scale = min 200 (p.hunger_scale + 50)) := by
  obtain ⟨e1, f1, w1, a1, hu1⟩ := feed_primary_fields now_h r p
  obtain ⟨-, -, -, -, -, tf2, tw2, an2, hg2, ex2⟩ :=
    handle_post_action_frame now (feed_primary now_h r p)
  obtain ⟨-, -, -, -, -, tf3, tw3, an3, hg3, ex3, -, -, -⟩ :=
    sickRecheck_frame now (handle_post_action now (feed_primary now_h r p))
  unfold feed_effects
  refine ⟨?_, ?_, ?_, ?_, ?_⟩
  · rw [ex3, ex2, e1]
  · rw [tf3, tf2, f1]
  · rw [tw3, tw2, w1]
  · rw [an3, an2, a1]
  · rw [hg3, hg2]; exact hu1

theorem walk_effects_fields (now_h now : Int) (r : WalkRand) (p : Pet) :
    (walk_effects now_h now r p).total_walks = p.total_walks + 1 ∧
    (walk_effects now_h now r p).total_feeds = p.total_feeds ∧
    (walk_effects now_h now r p).anger = p.anger ∧
    (walk_effects now_h now r p).hunger_scale = p.hunger_scale ∧
    (r.neg_event = true →
      (walk_effects now_h now r p).experience = max 0 (p.experience - r.loss)) ∧
    (r.neg_event = false →
      (walk_effects now_h now r p).experience = p.experience + 1) ∧
    ((5 ≤ now_h ∧ now_h ≤ 11) →
      (walk_effects now_h now r p).walk_morning = p.walk_morning + 1) ∧
    (¬ (5 ≤ now_h ∧ now_h ≤ 11) →
      (walk_effects now_h now r p).walk_evening = p.walk_evening + 1) := by
  obtain ⟨tw1, tf1, an1, hg1, et1, ef1, wm1, we1⟩ := walk_primary_fields now_h r p
  obtain ⟨-, -, -, wm2, we2, tf2, tw2, an2, hg2, ex2⟩ :=
    handle_post_action_frame now (walk_primary now_h r p)
  obtain ⟨-, -, -, wm3, we3, tf3, tw3, an3, hg3, ex3, -, -, -⟩ :=
    sickRecheck_frame now (handle_post_action now (walk_primary now_h r p))
  unfold walk_effects
  refine ⟨?_, ?_, ?_, ?_, ?_, ?_, ?_, ?_⟩
  · rw [tw3, tw2, tw1]
  · rw [tf3, tf2, tf1]
  · rw [an3, an2, an1]
  · rw [hg3, hg2, hg1]
  · intro h; rw [ex3, ex2]; exact et1 h
  · intro h; rw [ex3, ex2]; exact ef1 h
  · intro h; rw [wm3, wm2]; exact wm1 h
  · intro h; rw [we3, we2]; exact we1 h

/-- C1: at the failing input (3rd morning feed, experience 10, illness
branch not firing, no cooldown), the code ends with experience 11 — a net
change of +1, not the net -1 the claim states: the overfeed `-2` patch is
overwritten by the later patch computed from the stale entry snapshot. -/
theorem C1_overfeed_stale_write :
    petOverfed.feed_morning = 2 ∧ petOverfed.experience = 10 ∧
    meal_period_for_dt 9 = Period.morning ∧
    (cmd_feed 9 0 ⟨false⟩ petOverfed).experience = petOverfed.experience + 1 := by
  decide

/-- C2: a boycott cooldown strictly in the future rejects both `feed` and
`walk` with the pet record completely unchanged; when the gate does not
block, the full normal effect path runs; and the gate reads only
`boycott_until` — replacing `sick_until` by anything (in particular a
future timestamp) never changes the gate's verdict. -/
theorem C2_boycott_gate (p : Pet) (t now_h now : Int) (rf : FeedRand)
    (wr : WalkRand) :
    (p.boycott_until = TStr.valid t → now < t →
      cmd_feed now_h now rf p = p ∧ cmd_walk now_h now wr p = p) ∧
    (boycottGateBlocks now p = false →
      cmd_feed now_h now rf p = feed_effects now_h now rf p ∧
      cmd_walk now_h now wr p = walk_effects now_h now wr p) ∧
    (∀ s : TStr,
      boycottGateBlocks now { p with sick_until := s } =
        boycottGateBlocks now p) := by
  refine ⟨fun hb hlt => ?_, fun hfree => ?_, fun s => rfl⟩
  · have hg : boycottGateBlocks now p = true := by
      unfold boycottGateBlocks; rw [hb]; exact decide_eq_true hlt
    constructor
    · unfold cmd_feed; rw [hg]; simp
    · unfold cmd_walk; rw [hg]; simp
  · constructor
    · unfold cmd_feed; rw [hfree]; simp
    · unfold cmd_walk; rw [hfree]; simp

/-- C2 witness: a pet with `boycott_until = 100` at `now = 50` rejects feed
and walk unchanged. -/
theorem C2_boycott_gate_witness :
    cmd_feed 9 50 ⟨false⟩ petBoycottFuture = petBoycottFuture ∧
    cmd_walk 9 50 ⟨false, 1⟩ petBoycottFuture = petBoycottFuture :=
  (C2_boycott_gate petBoycottFuture 100 9 50 ⟨false⟩ ⟨false, 1⟩).1 rfl
    (by decide)

theorem reset_anger_eq (today : Int) (r : ResetRand) (p : Pet) :
    (apply_daily_reset today r p).anger = resetAnger r p := rfl

theorem reset_hunger_eq (today : Int) (r : ResetRand) (p : Pet) :
    (apply_daily_reset today r p).hunger_scale =
      if p.hunger_scale + hungerAdd p ≥ 100 then
        max (p.hunger_scale + hungerAdd p) 100
      else p.hunger_scale + hungerAdd p := rfl

theorem reset_sick_flag_eq (today : Int) (r : ResetRand) (p : Pet) :
    (apply_daily_reset today r p).sick_flag =
      if p.hunger_scale + hungerAdd p ≥ 100 then 1 else p.sick_flag := rfl

theorem reset_boycott_active_eq (today : Int) (r : ResetRand) (p : Pet) :
    (apply_daily_reset today r p).boycott_active =
      if p.hunger_scale + hungerAdd p ≥ 100 ∨ resetAnger r p ≥ 100 then 1
      else p.boycott_active := rfl

theorem reset_total_feeds_eq (today : Int) (r : ResetRand) (p : Pet) :
    (apply_daily_reset today r p).total_feeds =
      if p.hunger_scale + hungerAdd p ≥ 100 then max 0 (p.total_feeds - 3)
      else p.total_feeds := rfl

theorem reset_total_walks_eq (today : Int) (r : ResetRand) (p : Pet) :
    (apply_daily_reset today r p).total_walks =
      if p.hunger_scale + hungerAdd p ≥ 100 then max 0 (p.total_walks - 2)
      else p.total_walks := rfl

theorem resetAnger_le_100 (r : ResetRand) (p : Pet) : resetAnger r p ≤ 100 := by
  unfold resetAnger
  dsimp only
  split
  · omega
  · split <;> omega

/-- C3: with all five daily counters at zero, the daily reset writes
`anger = 100` exactly (whatever the prior anger) and adds exactly 100 to
`hunger_scale`. -/
theorem C3_total_neglect (today : Int) (r : ResetRand) (p : Pet)
    (h : p.feed_morning = 0 ∧ p.feed_afternoon = 0 ∧ p.feed_evening = 0 ∧
         p.walk_morning = 0 ∧ p.walk_evening = 0) :
    (apply_daily_reset today r p).anger = 100 ∧
    (apply_daily_reset today r p).hunger_scale = p.hunger_scale + 100 := by
  obtain ⟨h1, h2, h3, h4, h5⟩ := h
  have hadd : hungerAdd p = 100 := by
    unfold hungerAdd; rw [h1, h2, h3, h4, h5]; simp
  constructor
  · rw [reset_anger_eq]
    unfold resetAnger; rw [h1, h2, h3, h4, h5]; simp
  · rw [reset_hunger_eq, hadd]
    split_ifs <;> omega

/-- C3 witness: evaluated on a fresh pet. -/
theorem C3_total_neglect_witness :
    (apply_daily_reset 1 ⟨29, 18, 20, 33, 17⟩ basePet).anger = 100 ∧
    (apply_daily_reset 1 ⟨29, 18, 20, 33, 17⟩ basePet).hunger_scale =
      basePet.hunger_scale + 100 :=
  C3_total_neglect 1 ⟨29, 18, 20, 33, 17⟩ basePet (by decide)

/-- C4: whatever the pre-reset state and whatever the five random penalty
draws, the anger value the daily reset writes back is at most 100. -/
theorem C4_reset_anger_le_100 (today : Int) (r : ResetRand) (p : Pet) :
    (apply_daily_reset today r p).anger ≤ 100 := by
  rw [reset_anger_eq]
  exact resetAnger_le_100 r p

/-- C10: the daily reset never writes the `boycott_until` or `sick_until`
cooldown timestamps; both are exactly what they were before the reset. -/
theorem C10_reset_preserves_cooldowns (today : Int) (r : ResetRand)
    (p : Pet) :
    (apply_daily_reset today r p).boycott_until = p.boycott_until ∧
    (apply_daily_reset today r p).sick_until = p.sick_until :=
  ⟨rfl, rfl⟩

theorem runAction_nonneg (p : Pet) (a : PetAction) (h : Nonneg p) :
    Nonneg (runAction p a) := by
  unfold Nonneg at h ⊢
  obtain ⟨he, hf, hw, ha, hh⟩ := h
  cases a with
  | feed now_h now r =>
    show 0 ≤ (cmd_feed now_h now r p).experience ∧
         0 ≤ (cmd_feed now_h now r p).total_feeds ∧
         0 ≤ (cmd_feed now_h now r p).total_walks ∧
         0 ≤ (cmd_feed now_h now r p).anger ∧
         0 ≤ (cmd_feed now_h now r p).hunger_scale
    unfold cmd_feed
    split
    · exact ⟨he, hf, hw, ha, hh⟩
    · obtain ⟨e1, f1, w1, a1, hu1⟩ := feed_effects_fields now_h now r p
      refine ⟨?_, ?_, ?_, ?_, ?_⟩
      · rw [e1]; omega
      · rw [f1]; omega
      · rw [w1]; omega
      · rw [a1]; omega
      · rcases hu1 with h1 | h1 <;> rw [h1] <;> omega
  | walk now_h now r =>
    show 0 ≤ (cmd_walk now_h now r p).experience ∧
         0 ≤ (cmd_walk now_h now r p).total_feeds ∧
         0 ≤ (cmd_walk now_h now r p).total_walks ∧
         0 ≤ (cmd_walk now_h now r p).anger ∧
         0 ≤ (cmd_walk now_h now r p).hunger_scale
    unfold cmd_walk
    split
    · exact ⟨he, hf, hw, ha, hh⟩
    · obtain ⟨tw1, tf1, an1, hg1, et1, ef1, -, -⟩ :=
        walk_effects_fields now_h now r p
      refine ⟨?_, ?_, ?_, ?_, ?_⟩
      · cases hne : r.neg_event
        · rw [ef1 hne]; omega
        · rw [et1 hne]; omega
      · rw [tf1]; omega
      · rw [tw1]; omega
      · rw [an1]; omega
      · rw [hg1]; omega

/-- C5: starting from any state where `experience`, `total_feeds`,
`total_walks`, `anger` and `hunger_scale` are non-negative, they stay
non-negative after any finite sequence of feed/walk actions, for any
action times and any outcomes of the probabilistic branches. -/
theorem C5_nonneg_invariant (p : Pet) (acts : List PetAction)
    (h : Nonneg p) : Nonneg (runActions acts p) := by
  induction acts generalizing p with
  | nil => exact h
  | cons a as ih => exact ih (runAction p a) (runAction_nonneg p a h)

/-- C5 witness: a fresh pet stays non-negative across a concrete sequence
of three feeds (the third an overfeed with the illness branch firing) and
a walk whose negative event fires. -/
theorem C5_nonneg_invariant_witness :
    Nonneg (runActions
      [PetAction.feed 9 10 ⟨false⟩, PetAction.feed 9 20 ⟨false⟩,
       PetAction.feed 9 30 ⟨true⟩, PetAction.walk 19 40 ⟨true, 3⟩]
      basePet) :=
  C5_nonneg_invariant basePet
    [PetAction.feed 9 10 ⟨false⟩, PetAction.feed 9 20 ⟨false⟩,
     PetAction.feed 9 30 ⟨true⟩, PetAction.walk 19 40 ⟨true, 3⟩]
    (by decide)

/-- C6: the post-action cooldown resolution is two independent checks: a
set `boycott_active` marker is cleared and `boycott_until` becomes
now + 2 hours, a set `sick_flag` marker is cleared and `sick_until`
becomes now + 2 hours, and an unset marker leaves its own marker and
`*_until` field untouched. -/
theorem C6_post_action_independent (now : Int) (p : Pet) :
    ((p.boycott_active = 1 →
        (handle_post_action now p).boycott_active = 0 ∧
        (handle_post_action now p).boycott_until =
          TStr.valid (now + twoHours)) ∧
     (p.boycott_active ≠ 1 →
        (handle_post_action now p).boycott_active = p.boycott_active ∧
        (handle_post_action now p).boycott_until = p.boycott_until)) ∧
    ((p.sick_flag = 1 →
        (handle_post_action now p).sick_flag = 0 ∧
        (handle_post_action now p).sick_until =
          TStr.valid (now + twoHours)) ∧
     (p.sick_flag ≠ 1 →
        (handle_post_action now p).sick_flag = p.sick_flag ∧
        (handle_post_action now p).sick_until = p.sick_until)) := by
  unfold handle_post_action
  by_cases hb : p.boycott_active = 1 <;> by_cases hs : p.sick_flag = 1 <;>
    simp [hb, hs]

/-- C6 witness: with both markers pending, one action clears both and sets
both cooldowns to now + 2 hours. -/
theorem C6_post_action_independent_witness :
    ((handle_post_action 100 petBothMarkers).boycott_active = 0 ∧
     (handle_post_action 100 petBothMarkers).boycott_until =
       TStr.valid (100 + twoHours)) ∧
    ((handle_post_action 100 petBothMarkers).sick_flag = 0 ∧
     (handle_post_action 100 petBothMarkers).sick_until =
       TStr.valid (100 + twoHours)) :=
  ⟨(C6_post_action_independent 100 petBothMarkers).1.1 (by decide),
   (C6_post_action_independent 100 petBothMarkers).2.1 (by decide)⟩

/-- C7: when the post-update hunger reaches 100, the daily reset sets both
pending markers, decrements `total_feeds` by 3 and `total_walks` by 2
(floored at 0) and stores a hunger value of at least 100; below the
threshold this branch applies none of that (the marker it shares with the
anger branch changes only if anger reached 100). -/
theorem C7_reset_hunger_threshold (today : Int) (r : ResetRand) (p : Pet) :
    (p.hunger_scale + hungerAdd p ≥ 100 →
      (apply_daily_reset today r p).sick_flag = 1 ∧
      (apply_daily_reset today r p).boycott_active = 1 ∧
      (apply_daily_reset today r p).total_feeds =
        max 0 (p.total_feeds - 3) ∧
      (apply_daily_reset today r p).total_walks =
        max 0 (p.total_walks - 2) ∧
      100 ≤ (apply_daily_reset today r p).hunger_scale) ∧
    (p.hunger_scale + hungerAdd p < 100 →
      (apply_daily_reset today r p).sick_flag = p.sick_flag ∧
      (apply_daily_reset today r p).total_feeds = p.total_feeds ∧
      (apply_daily_reset today r p).total_walks = p.total_walks ∧
      (apply_daily_reset today r p).hunger_scale =
        p.hunger_scale + hungerAdd p ∧
      (apply_daily_reset today r p).boycott_active =
        (if resetAnger r p ≥ 100 then 1 else p.boycott_active)) := by
  constructor
  · intro h
    rw [reset_sick_flag_eq, reset_boycott_active_eq, reset_total_feeds_eq,
        reset_total_walks_eq, reset_hunger_eq]
    rw [if_pos h, if_pos (Or.inl h), if_pos h, if_pos h, if_pos h]
    refine ⟨rfl, rfl, rfl, rfl, ?_⟩
    omega
  · intro h
    have h' : ¬ p.hunger_scale + hungerAdd p ≥ 100 := by omega
    rw [reset_sick_flag_eq, reset_boycott_active_eq, reset_total_feeds_eq,
        reset_total_walks_eq, reset_hunger_eq]
    rw [if_neg h', if_neg h', if_neg h', if_neg h']
    refine ⟨rfl, rfl, rfl, rfl, ?_⟩
    by_cases ha : resetAnger r p ≥ 100
    · rw [if_pos (Or.inr ha), if_pos ha]
    · have hor : ¬ (p.hunger_scale + hungerAdd p ≥ 100 ∨
          resetAnger r p ≥ 100) := by
        rintro (hx | hx)
        · exact h' hx
        · exact ha hx
      rw [if_neg hor, if_neg ha]

/-- C7 witness: a pet at hunger 90 missing all five slots crosses the
threshold (90 + 100 = 190) and receives all four penalties. -/
theorem C7_reset_hunger_threshold_witness :
    (apply_daily_reset 1 ⟨29, 18, 20, 33, 17⟩ petNeglected).sick_flag = 1 ∧
    (apply_daily_reset 1 ⟨29, 18, 20, 33, 17⟩ petNeglected).boycott_active
      = 1 ∧
    (apply_daily_reset 1 ⟨29, 18, 20, 33, 17⟩ petNeglected).total_feeds =
      max 0 (petNeglected.total_feeds - 3) ∧
    (apply_daily_reset 1 ⟨29, 18, 20, 33, 17⟩ petNeglected).total_walks =
      max 0 (petNeglected.total_walks - 2) ∧
    100 ≤ (apply_daily_reset 1 ⟨29, 18, 20, 33, 17⟩
      petNeglected).hunger_scale :=
  (C7_reset_hunger_threshold 1 ⟨29, 18, 20, 33, 17⟩ petNeglected).1
    (by decide)

/-- C8 counterexample: a morning walk on a pet with experience 10, with
the negative event firing at loss 3, leaves experience 7 — not the
max(0, 10 + 1 - 3) = 8 the claim computes: the event patch is based on
the stale pre-action experience, so the +1 increment is discarded. -/
theorem C8_walk_event_counterexample :
    petWalkTen.experience = 10 ∧
    (cmd_walk 9 0 ⟨true, 3⟩ petWalkTen).experience = 7 ∧
    max 0 (petWalkTen.experience + 1 - 3) = 8 := by
  decide

/-- C8 amended: an ungated walk increments the period walk counter and
`total_walks` by 1 and writes `experience := old + 1`; when the negative
event fires with loss L that write is overwritten with
max(0, old_experience - L), computed from the pre-action experience (the
+1 is lost); without the event, experience ends at old + 1. -/
theorem C8_walk_event_amended (p : Pet) (now_h now : Int) (r : WalkRand)
    (h : boycottGateBlocks now p = false) :
    (cmd_walk now_h now r p).total_walks = p.total_walks + 1 ∧
    ((5 ≤ now_h ∧ now_h ≤ 11) →
      (cmd_walk now_h now r p).walk_morning = p.walk_morning + 1) ∧
    (¬ (5 ≤ now_h ∧ now_h ≤ 11) →
      (cmd_walk now_h now r p).walk_evening = p.walk_evening + 1) ∧
    (r.neg_event = false →
      (cmd_walk now_h now r p).experience = p.experience + 1) ∧
    (r.neg_event = true →
      (cmd_walk now_h now r p).experience =
        max 0 (p.experience - r.loss)) := by
  have hc : cmd_walk now_h now r p = walk_effects now_h now r p := by
    unfold cmd_walk; rw [h]; simp
  obtain ⟨tw1, tf1, an1, hg1, et1, ef1, wm1, we1⟩ :=
    walk_effects_fields now_h now r p
  rw [hc]
  exact ⟨tw1, wm1, we1, ef1, et1⟩

/-- C8 amended witness: the morning walk with the event at loss 3 on a
pet with experience 10 gives total_walks + 1 and experience
max(0, 10 - 3) = 7. -/
theorem C8_walk_event_amended_witness :
    (cmd_walk 9 0 ⟨true, 3⟩ petWalkTen).total_walks =
      petWalkTen.total_walks + 1 ∧
    (cmd_walk 9 0 ⟨true, 3⟩ petWalkTen).experience =
      max 0 (petWalkTen.experience - 3) := by
  have h := C8_walk_event_amended petWalkTen 9 0 ⟨true, 3⟩ (by decide)
  exact ⟨h.1, h.2.2.2.2 rfl⟩

/-- C9: a `boycott_until` value that does not parse never blocks: the gate
degrades to permissive and both commands run their full normal effect
path (in particular the totals and experience still increment). -/
theorem C9_corrupt_timestamp_permissive (p : Pet) (now_h now : Int)
    (rf : FeedRand) (wr : WalkRand) (h : p.boycott_until = TStr.corrupt) :
    cmd_feed now_h now rf p = feed_effects now_h now rf p ∧
    cmd_walk now_h now wr p = walk_effects now_h now wr p ∧
    (cmd_feed now_h now rf p).total_feeds = p.total_feeds + 1 ∧
    (cmd_feed now_h now rf p).experience = p.experience + 1 ∧
    (cmd_walk now_h now wr p).total_walks = p.total_walks + 1 := by
  have hg : boycottGateBlocks now p = false := by
    unfold boycottGateBlocks; rw [h]
  have hcf : cmd_feed now_h now rf p = feed_effects now_h now rf p := by
    unfold cmd_feed; rw [hg]; simp
  have hcw : cmd_walk now_h now wr p = walk_effects now_h now wr p := by
    unfold cmd_walk; rw [hg]; simp
  obtain ⟨e1, f1, -, -, -⟩ := feed_effects_fields now_h now rf p
  obtain ⟨tw1, -, -, -, -, -, -, -⟩ := walk_effects_fields now_h now wr p
  exact ⟨hcf, hcw, by rw [hcf, f1], by rw [hcf, e1], by rw [hcw, tw1]⟩

/-- C9 witness: evaluated on a pet whose stored boycott timestamp is
corrupt. -/
theorem C9_corrupt_timestamp_permissive_witness :
    cmd_feed 9 0 ⟨false⟩ petCorrupt = feed_effects 9 0 ⟨false⟩ petCorrupt ∧
    cmd_walk 9 0 ⟨false, 1⟩ petCorrupt =
      walk_effects 9 0 ⟨false, 1⟩ petCorrupt ∧
    (cmd_feed 9 0 ⟨false⟩ petCorrupt).total_feeds =
      petCorrupt.total_feeds + 1 ∧
    (cmd_feed 9 0 ⟨false⟩ petCorrupt).experience =
      petCorrupt.experience + 1 ∧
    (cmd_walk 9 0 ⟨false, 1⟩ petCorrupt).total_walks =
      petCorrupt.total_walks + 1 :=
  C9_corrupt_timestamp_permissive petCorrupt 9 0 ⟨false⟩ ⟨false, 1⟩ rfl
